import Mathlib

/-!
Verification of the indexadillo API gateway (src/src/function_app.py).

The Python source is shallowly embedded: each handler or helper that the
claims touch is translated into an executable Lean definition, keeping the
source structure and names. External collaborators (Durable orchestration
client, Cosmos principal store, blob storage) are passed in as explicit
function arguments, following the interfaces of the specification.
-/

namespace Indexadillo

/-- Per-plan rate limits, the values of the `limits` dictionary in
`check_rate_limits` (function_app.py lines 145-151). -/
structure PlanLimits where
  requests_per_minute : Nat
  requests_per_hour : Nat
deriving DecidableEq, Repr

/-- The `limits` dictionary of `check_rate_limits`, as an association list. -/
def limits : List (String × PlanLimits) :=
  [("free", ⟨10, 100⟩),
   ("developer", ⟨100, 2000⟩),
   ("basic", ⟨100, 2000⟩),
   ("professional", ⟨1000, 50000⟩),
   ("enterprise", ⟨10000, 500000⟩)]

/-- `limits.get(plan, limits["free"])` (function_app.py line 153). -/
def limitsGet (plan : String) : PlanLimits :=
  (limits.lookup plan).getD ⟨10, 100⟩

/-- The JSON body of a 429 response built by `check_rate_limits`. -/
structure RateLimitRejection where
  error : String
  code : String
  limit : Nat
  window : String
  retry_after : Int
  status_code : Nat
deriving DecidableEq, Repr

/-- `check_rate_limits` (function_app.py lines 139-199) for one tenant.
Takes the plan of the tenant, the stored timestamp list
`rate_limit_storage[user_id]` and `current_time`; returns the optional 429
rejection together with the new stored timestamp list (the source first
reassigns the pruned list to the storage, then appends `current_time` only
when the request is admitted). -/
def check_rate_limits (plan : String) (record : List Int) (current_time : Int) :
    Option RateLimitRejection × List Int :=
  let plan_limits := limitsGet plan
  let pruned := record.filter (fun timestamp => current_time - timestamp < 3600)
  if pruned.length ≥ plan_limits.requests_per_hour then
    (some ⟨"Hourly rate limit exceeded", "RATE_LIMIT_EXCEEDED",
           plan_limits.requests_per_hour, "hour",
           3600 - current_time % 3600, 429⟩, pruned)
  else
    let recent_requests := pruned.filter (fun timestamp => current_time - timestamp < 60)
    if recent_requests.length ≥ plan_limits.requests_per_minute then
      (some ⟨"Per-minute rate limit exceeded", "RATE_LIMIT_EXCEEDED",
             plan_limits.requests_per_minute, "minute", 60, 429⟩, pruned)
    else
      (none, pruned ++ [current_time])

/-- Outcome of one rate-limit check as described by the specification. -/
inductive RLDecision where
  | rejected (status_code : Nat) (limit : Nat) (window : String) (retry_after : Int)
  | admitted (newRecord : List Int)
deriving DecidableEq, Repr

/-- The rate-limit check exactly as the specification words it (spec section
4.3, steps 1-4): prune the timestamps older than 3600 seconds, reject on the
hourly count with `retry_after = 3600 - (now mod 3600)`, then reject on the
count of timestamps within the last 60 seconds with `retry_after = 60`,
otherwise append `now` and admit.  Written from the words of the spec, to be
compared against `check_rate_limits`. -/
def rateLimitSpec (rpm rph : Nat) (record : List Int) (now : Int) : RLDecision :=
  let kept := record.filter (fun t => !(now - t ≥ 3600))
  if rph ≤ kept.length then
    .rejected 429 rph "hour" (3600 - now % 3600)
  else if rpm ≤ kept.countP (fun t => now - t < 60) then
    .rejected 429 rpm "minute" 60
  else
    .admitted (kept ++ [now])

/-- View of a `check_rate_limits` result as a plain decision. -/
def toDecision : Option RateLimitRejection × List Int → RLDecision
  | (some r, _) => .rejected r.status_code r.limit r.window r.retry_after
  | (none, rec) => .admitted rec

/-- Feed a sequence of request times through `check_rate_limits`, threading
the stored record, and collect the per-request outcomes. -/
def runRequests (plan : String) (times : List Int) (record : List Int) :
    List (Option RateLimitRejection) × List Int :=
  match times with
  | [] => ([], record)
  | t :: ts =>
    let step := check_rate_limits plan record t
    let rest := runRequests plan ts step.2
    (step.1 :: rest.1, rest.2)

/-- Keeping the timestamps that are not older than 3600 seconds is the same
as keeping those younger than 3600 seconds. -/
lemma filter_age_eq (record : List Int) (now : Int) :
    record.filter (fun t => !(now - t ≥ 3600)) =
      record.filter (fun t => now - t < 3600) := by
  apply List.filter_congr
  intro t _
  simp only [← decide_not, decide_eq_decide, Int.not_le]

/-- The 429 body produced for a free-plan tenant that exceeds the
per-minute window. -/
def freeMinuteReject : RateLimitRejection :=
  ⟨"Per-minute rate limit exceeded", "RATE_LIMIT_EXCEEDED", 10, "minute", 60, 429⟩

/-- C1: the rate-limit check follows the specified order — prune entries
older than 3600 s, reject on the hourly count with
`retry_after = 3600 - (now mod 3600)`, reject on the 60-second count with
`retry_after = 60`, otherwise append `now` and admit; both rejections are
429 responses carrying the exceeded limit and window name.  Stated as a
refinement: `check_rate_limits` agrees with `rateLimitSpec`, the check
transcribed from the words of the spec, for every plan, record and time;
and the end-to-end scenario holds: 11 requests at one instant from a
free-plan tenant admit the first ten and reject the eleventh with a 429
carrying limit 10 and window "minute". -/
theorem c1_rate_limit_check_order :
    (∀ (plan : String) (record : List Int) (now : Int),
      toDecision (check_rate_limits plan record now) =
        rateLimitSpec (limitsGet plan).requests_per_minute
          (limitsGet plan).requests_per_hour record now) ∧
    (runRequests "free" (List.replicate 11 0) []).1 =
      List.replicate 10 none ++ [some freeMinuteReject] := by
  constructor
  · intro plan record now
    simp only [check_rate_limits, rateLimitSpec, filter_age_eq,
      List.countP_eq_length_filter, ge_iff_le]
    split_ifs <;> rfl
  · decide

/-- C8: the rate limits applied are exactly those of the plan tier — free
10/100, developer and basic 100/2000, professional 1000/50000, enterprise
10000/500000 — and any plan outside these named tiers falls back to the
free-tier limits. -/
theorem c8_plan_limit_table :
    limitsGet "free" = ⟨10, 100⟩ ∧
    limitsGet "developer" = ⟨100, 2000⟩ ∧
    limitsGet "basic" = ⟨100, 2000⟩ ∧
    limitsGet "professional" = ⟨1000, 50000⟩ ∧
    limitsGet "enterprise" = ⟨10000, 500000⟩ ∧
    ∀ plan : String, plan ≠ "free" → plan ≠ "developer" → plan ≠ "basic" →
      plan ≠ "professional" → plan ≠ "enterprise" → limitsGet plan = ⟨10, 100⟩ := by
  refine ⟨by decide, by decide, by decide, by decide, by decide, ?_⟩
  intro plan h1 h2 h3 h4 h5
  simp [limitsGet, limits, List.lookup, beq_eq_false_iff_ne.mpr h1,
    beq_eq_false_iff_ne.mpr h2, beq_eq_false_iff_ne.mpr h3,
    beq_eq_false_iff_ne.mpr h4, beq_eq_false_iff_ne.mpr h5]

/-- Witness for C8 at the unknown plan "gold". -/
theorem c8_plan_limit_table_witness : limitsGet "gold" = ⟨10, 100⟩ :=
  c8_plan_limit_table.2.2.2.2.2 "gold" (by decide) (by decide) (by decide)
    (by decide) (by decide)

/-- C9: one rate-limit check mutates the tenant record only by pruning the
entries older than 3600 s and, exactly when the request is admitted,
appending the current time; a rejected request leaves the pruned record
unchanged, so rejected requests never consume quota. -/
theorem c9_record_mutation (plan : String) (record : List Int) (now : Int) :
    ((check_rate_limits plan record now).1 = none →
      (check_rate_limits plan record now).2 =
        record.filter (fun t => now - t < 3600) ++ [now]) ∧
    ((check_rate_limits plan record now).1 ≠ none →
      (check_rate_limits plan record now).2 =
        record.filter (fun t => now - t < 3600)) := by
  simp only [check_rate_limits]
  split_ifs <;> simp

/-- Witness for C9: at plan "free", empty record and time 0, the request is
admitted and the new record is the pruned record with 0 appended. -/
theorem c9_record_mutation_witness :
    (check_rate_limits "free" [] 0).1 = none ∧
    (check_rate_limits "free" [] 0).2 =
      List.filter (fun t => (0 : Int) - t < 3600) [] ++ [(0 : Int)] :=
  ⟨by decide, (c9_record_mutation "free" [] 0).1 (by decide)⟩

/-- A tenant record as returned by `validate_api_key` (the fields of the
synthesized development user and of the Cosmos `api_users` documents that
the claims need). -/
structure Tenant where
  id : String
  plan : String
  active : Bool
  name : String
deriving DecidableEq, Repr

/-- The synthesized development user (function_app.py lines 67-72). -/
def devUser : Tenant := ⟨"dev_user", "developer", true, "Development User"⟩

/-- The state `APIAuthManager.__init__` leaves behind
(function_app.py lines 44-60): `cosmos_configured` is whether both
COSMOS_ENDPOINT and COSMOS_KEY are set, and `init_ok` is whether obtaining
the database and container clients succeeded; the source sets
`self.cosmos_client = None` when either the configuration is absent or that
initialization raised. -/
structure AuthManagerEnv where
  cosmos_configured : Bool
  init_ok : Bool
deriving DecidableEq, Repr

/-- Whether `self.cosmos_client` is non-None after `__init__`. -/
def hasCosmosClient (env : AuthManagerEnv) : Bool :=
  env.cosmos_configured && env.init_ok

/-- The Python `str.startswith` test, on the character data of the
strings. -/
def pyStartswith (s pre : String) : Bool :=
  pre.data.isPrefixOf s.data

/-- `APIAuthManager.validate_api_key` (function_app.py lines 62-91).
`store` abstracts the Cosmos query by api_key; the query itself filters on
`c.active = true`, modelled by the `active` check on the returned record.
When `self.cosmos_client` is None the development fallback accepts any key
starting with "dev_" and synthesizes `devUser`. -/
def validate_api_key (env : AuthManagerEnv) (store : String → Option Tenant)
    (api_key : String) : Option Tenant :=
  if hasCosmosClient env then
    match store api_key with
    | some user => if user.active then some user else none
    | none => none
  else
    if pyStartswith api_key "dev_" then some devUser else none

/-- C2 (code bug): with COSMOS_ENDPOINT and COSMOS_KEY configured but the
Cosmos client initialization failing (`init_ok = false`, the except branch
of `__init__`), `self.cosmos_client` is None and the development fallback
activates even though a Principal Store is configured: the key "dev_abc"
yields the synthesized developer tenant although the store holds no users
at all.  This contradicts the claim that the bypass never activates when a
store is configured. -/
theorem c2_dev_fallback_bug :
    validate_api_key ⟨true, false⟩ (fun _ => none) "dev_abc" = some devUser ∧
    hasCosmosClient ⟨true, false⟩ = false := by
  constructor
  · decide
  · decide

/-- An HTTP response, reduced to the status code and the stable error code
string of the JSON body (empty for success bodies). -/
structure HttpResponse where
  status_code : Nat
  code : String
deriving DecidableEq, Repr

/-- `api_key = req.headers.get("X-API-Key") or
req.headers.get("Authorization", "").replace("Bearer ", "")`
(function_app.py lines 98-99): the Authorization fallback is used when the
X-API-Key header is absent or empty. -/
def extractApiKey (xApiKey authorization : Option String) : String :=
  match xApiKey with
  | some k => if k = "" then (authorization.getD "").replace "Bearer " "" else k
  | none => (authorization.getD "").replace "Bearer " ""

/-- Trace of one request through the `require_api_key` and `track_usage`
decorators: the response returned to the client, whether
`check_rate_limits` was ever called, whether the wrapped business handler
ran, and whether a usage record was produced. -/
structure GateTrace where
  response : HttpResponse
  rate_limit_checked : Bool
  handler_ran : Bool
  usage_recorded : Bool
deriving DecidableEq, Repr

/-- The composed decorators of the gated endpoints
(`@require_api_key` above `@track_usage`, so `require_api_key` is the outer
wrapper): `require_api_key` (function_app.py lines 93-137) extracts the key,
returns 401 MISSING_API_KEY or 401 INVALID_API_KEY before any rate-limit
check, sets `req.user`, calls `check_rate_limits` and returns its 429
rejection before invoking the inner function; the inner `track_usage`
wrapper (lines 241-283) runs the business handler and records usage in its
finally block since `req.user` is set. -/
def gatedRequest (env : AuthManagerEnv) (store : String → Option Tenant)
    (xApiKey authorization : Option String) (storage : String → List Int)
    (now : Int) (handler : HttpResponse) : GateTrace :=
  let api_key := extractApiKey xApiKey authorization
  if api_key = "" then
    ⟨⟨401, "MISSING_API_KEY"⟩, false, false, false⟩
  else
    match validate_api_key env store api_key with
    | none => ⟨⟨401, "INVALID_API_KEY"⟩, false, false, false⟩
    | some user =>
      match (check_rate_limits user.plan (storage user.id) now).1 with
      | some r => ⟨⟨429, r.code⟩, true, false, false⟩
      | none => ⟨handler, true, true, true⟩

/-- C3: a request that fails authentication — missing key, or a key the
store rejects (invalid or inactive) — gets a 401 and never reaches the
rate-limit check, never runs the handler and never produces a usage
record; an authenticated request that exceeds a rate limit gets the 429
rejection before the business handler runs and without a usage record. -/
theorem c3_gate_short_circuit (env : AuthManagerEnv)
    (store : String → Option Tenant) (xApiKey authorization : Option String)
    (storage : String → List Int) (now : Int) (handler : HttpResponse) :
    (extractApiKey xApiKey authorization = "" →
      gatedRequest env store xApiKey authorization storage now handler =
        ⟨⟨401, "MISSING_API_KEY"⟩, false, false, false⟩) ∧
    (extractApiKey xApiKey authorization ≠ "" →
      validate_api_key env store (extractApiKey xApiKey authorization) = none →
      gatedRequest env store xApiKey authorization storage now handler =
        ⟨⟨401, "INVALID_API_KEY"⟩, false, false, false⟩) ∧
    (∀ user : Tenant,
      extractApiKey xApiKey authorization ≠ "" →
      validate_api_key env store (extractApiKey xApiKey authorization) =
        some user →
      ∀ r : RateLimitRejection,
        (check_rate_limits user.plan (storage user.id) now).1 = some r →
        gatedRequest env store xApiKey authorization storage now handler =
          ⟨⟨429, r.code⟩, true, false, false⟩) := by
  refine ⟨?_, ?_, ?_⟩
  · intro hempty
    simp only [gatedRequest, if_pos hempty]
  · intro hkey hval
    simp only [gatedRequest, if_neg hkey, hval]
  · intro user hkey hval r hrl
    simp only [gatedRequest, if_neg hkey, hval, hrl]

/-- Witness for C3: with a configured, working store holding one active
free-plan tenant whose record already holds ten requests at time 0, the
gated request at time 0 is rejected 429 with no handler run and no usage
record. -/
theorem c3_gate_short_circuit_witness :
    gatedRequest ⟨true, true⟩
      (fun k => if k = "k1" then some ⟨"u1", "free", true, "U"⟩ else none)
      (some "k1") none (fun _ => List.replicate 10 0) 0 ⟨200, ""⟩ =
    ⟨⟨429, "RATE_LIMIT_EXCEEDED"⟩, true, false, false⟩ :=
  (c3_gate_short_circuit ⟨true, true⟩
      (fun k => if k = "k1" then some ⟨"u1", "free", true, "U"⟩ else none)
      (some "k1") none (fun _ => List.replicate 10 0) 0 ⟨200, ""⟩).2.2
    ⟨"u1", "free", true, "U"⟩ (by decide) (by decide)
    ⟨"Per-minute rate limit exceeded", "RATE_LIMIT_EXCEEDED", 10, "minute",
      60, 429⟩ (by decide)

/-- The status object returned by `client.get_status`: the name of the
runtime status and the output field. -/
structure OrchestrationStatus where
  runtime_status : String
  output : String
deriving DecidableEq, Repr

/-- Outcome of `call_activity_direct` (function_app.py lines 335-357). -/
inductive BridgeOutcome where
  | ok (output : String)
  | stage_failed (message : String)
  | timeout_error (message : String)
  | name_error (message : String)
deriving DecidableEq, Repr

/-- Whether the module imports asyncio.  The import list of
function_app.py (lines 1-27) does not contain asyncio, so evaluating
`asyncio.sleep(2)` at line 355 raises a NameError. -/
def asyncioImported : Bool := false

/-- The result of evaluating `asyncio.sleep(2)` inside
`call_activity_direct`: a NameError, since asyncio is never imported. -/
def asyncioSleep : Except String Unit :=
  if asyncioImported then .ok () else .error "NameError: name asyncio is not defined"

/-- The polling loop of `call_activity_direct` (function_app.py lines
344-357).  `get_status i` is the status returned by the i-th poll; elapsed
time is modelled as 2 seconds per completed sleep, so the guard
`time.time() - start_time < timeout_seconds` with `timeout_seconds = 300`
becomes `2 * i < 300`.  A Completed status returns the output, a Failed
status raises `Activity failed: {output}`, any other status attempts
`asyncio.sleep(2)` before the next poll, and exhausting the bound raises
`Activity timeout`. -/
def call_activity_direct_loop (get_status : Nat → OrchestrationStatus)
    (i : Nat) : BridgeOutcome :=
  if h : 2 * i < 300 then
    let status := get_status i
    if status.runtime_status = "Completed" then
      .ok status.output
    else if status.runtime_status = "Failed" then
      .stage_failed ("Activity failed: " ++ status.output)
    else
      match asyncioSleep with
      | .error e => .name_error e
      | .ok _ => call_activity_direct_loop get_status (i + 1)
  else
    .timeout_error "Activity timeout"
termination_by 300 - 2 * i
decreasing_by omega

/-- `call_activity_direct` after `client.start_new`: poll from i = 0. -/
def call_activity_direct (get_status : Nat → OrchestrationStatus) :
    BridgeOutcome :=
  call_activity_direct_loop get_status 0

/-- C4 (code bug): the bridge is written with a 300-second bound, a fixed
2-second poll interval, a distinct `Activity timeout` failure and a stage
failure carrying the stage error message, but the module never imports
asyncio, so the first poll that sees a non-terminal status raises NameError
at `asyncio.sleep(2)` instead of waiting: with a status stream that stays
Running, the outcome is the NameError, not the distinct timeout failure.
The first-poll terminal paths still behave as claimed: an immediately
Failed stage surfaces `Activity failed:` with the stage output, and an
immediately Completed stage returns its output. -/
theorem c4_bridge_missing_asyncio :
    call_activity_direct (fun _ => ⟨"Running", ""⟩) =
      .name_error "NameError: name asyncio is not defined" ∧
    call_activity_direct (fun _ => ⟨"Failed", "boom"⟩) =
      .stage_failed "Activity failed: boom" ∧
    call_activity_direct (fun _ => ⟨"Completed", "out"⟩) = .ok "out" := by
  refine ⟨?_, ?_, ?_⟩ <;>
    · rw [call_activity_direct, call_activity_direct_loop]
      simp [asyncioSleep, asyncioImported]

/-- `status_id` (function_app.py lines 405-425), GET /status/{id}.  The
Job Status Store is modelled from the spec interface
`getStatus(jobId, ...) -> JobStatus|NotFound` as an optional result.  The
handler calls `result.to_json()` unconditionally; when the store reports
NotFound the Python value is None and the attribute access raises an
unhandled AttributeError (there is no try/except and no 404 branch), which
is modelled as an `Except.error`. -/
def status_id (get_status : String → Option OrchestrationStatus)
    (id : String) : Except String HttpResponse :=
  match get_status id with
  | none => .error "AttributeError: NoneType object has no attribute to_json"
  | some _ => .ok ⟨200, ""⟩

/-- `api_job_status` (function_app.py lines 757-798),
GET /api/v1/jobs/{job_id}: a missing job gives 404 JOB_NOT_FOUND, a found
job gives 200. -/
def api_job_status (get_status : String → Option OrchestrationStatus)
    (job_id : String) : HttpResponse :=
  match get_status job_id with
  | none => ⟨404, "JOB_NOT_FOUND"⟩
  | some _ => ⟨200, ""⟩

/-- C5 counterexample: against a store with no jobs, GET /status/{id} for
the id "unknown-job" does not respond 404 — the handler has no not-found
branch and fails with an unhandled AttributeError, refuting the claim that
both endpoints respond 404 for an unknown job id. -/
theorem c5_status_id_counterexample :
    status_id (fun _ => none) "unknown-job" =
      .error "AttributeError: NoneType object has no attribute to_json" ∧
    ∀ resp : HttpResponse, status_id (fun _ => none) "unknown-job" ≠ .ok resp := by
  constructor
  · rfl
  · intro resp h
    simp [status_id] at h

/-- C5 amended: GET /api/v1/jobs/{job_id} responds 404 for an unknown job
id and 200 for a known one; GET /status/{id} responds 200 for a known id,
but for an unknown id it raises an unhandled error instead of returning a
404 response. -/
theorem c5_job_status_not_found (get_status : String → Option OrchestrationStatus)
    (id : String) :
    (get_status id = none →
      api_job_status get_status id = ⟨404, "JOB_NOT_FOUND"⟩ ∧
      status_id get_status id =
        .error "AttributeError: NoneType object has no attribute to_json") ∧
    (∀ st : OrchestrationStatus, get_status id = some st →
      api_job_status get_status id = ⟨200, ""⟩ ∧
      status_id get_status id = .ok ⟨200, ""⟩) := by
  constructor
  · intro hnone
    simp [api_job_status, status_id, hnone]
  · intro st hsome
    simp [api_job_status, status_id, hsome]

/-- Witness for C5: a one-job store answers 404 for the missing id and 200
for the present one. -/
theorem c5_job_status_not_found_witness :
    api_job_status (fun j => if j = "job-1" then some ⟨"Completed", ""⟩ else none)
      "job-2" = ⟨404, "JOB_NOT_FOUND"⟩ ∧
    api_job_status (fun j => if j = "job-1" then some ⟨"Completed", ""⟩ else none)
      "job-1" = ⟨200, ""⟩ :=
  ⟨((c5_job_status_not_found
      (fun j => if j = "job-1" then some ⟨"Completed", ""⟩ else none) "job-2").1
      (by decide)).1,
   ((c5_job_status_not_found
      (fun j => if j = "job-1" then some ⟨"Completed", ""⟩ else none) "job-1").2
      ⟨"Completed", ""⟩ (by decide)).1⟩

/-- The `size_limits` dictionary of `api_document_extract`
(function_app.py lines 521-527), in bytes. -/
def size_limits : List (String × Nat) :=
  [("free", 5 * 1024 * 1024),
   ("developer", 25 * 1024 * 1024),
   ("basic", 25 * 1024 * 1024),
   ("professional", 100 * 1024 * 1024),
   ("enterprise", 500 * 1024 * 1024)]

/-- `size_limits.get(plan, size_limits["free"])` (function_app.py line 529). -/
def sizeLimitsGet (plan : String) : Nat :=
  (size_limits.lookup plan).getD (5 * 1024 * 1024)

/-- The request body of the extraction endpoint: a multipart form that may
or may not carry a `document` file (its byte length and filename), a JSON
body with an optional `document_url` and a `filename` defaulting to
"document", or an unparsable body. -/
inductive ExtractBody where
  | multipart (document : Option (Nat × String))
  | jsonBody (document_url : Option String) (filename : String)
  | invalidJson
deriving DecidableEq, Repr

/-- The document source handed to the `document_cracking` stage: either the
temporary blob uploaded from the multipart file, or the client-supplied
URL. -/
inductive DocSource where
  | uploaded (size : Nat) (filename : String)
  | url (document_url : String)
deriving DecidableEq, Repr

/-- Gateway outcome of `api_document_extract` up to the stage dispatch
(function_app.py lines 500-564): either a rejection response, or the call
of `call_activity_direct(client, "document_cracking", blob_url)` on the
resolved source.  The 413 body carries
`max_size = f"{limit // (1024*1024)}MB"` and the plan. -/
inductive ExtractOutcome where
  | rejected (status_code : Nat) (code : String)
  | tooLarge (max_size : String) (plan : String)
  | dispatched (source : DocSource)
deriving DecidableEq, Repr

/-- `api_document_extract` (function_app.py lines 500-564) up to the
invocation of the document_cracking stage.  The multipart branch checks
`len(file_data) > size_limits.get(plan, size_limits["free"])` and returns
413 before `upload_temp_document` and before the stage call; the JSON
branch reads `document_url` with no size check; `if not blob_url` catches a
missing or empty URL. -/
def api_document_extract (plan : String) (body : ExtractBody) : ExtractOutcome :=
  match body with
  | .multipart none => .rejected 400 "MISSING_DOCUMENT"
  | .multipart (some (size, filename)) =>
    if size > sizeLimitsGet plan then
      .tooLarge (toString (sizeLimitsGet plan / (1024 * 1024)) ++ "MB") plan
    else
      .dispatched (.uploaded size filename)
  | .jsonBody document_url _ =>
    match document_url with
    | none => .rejected 400 "MISSING_URL"
    | some u => if u = "" then .rejected 400 "MISSING_URL" else .dispatched (.url u)
  | .invalidJson => .rejected 400 "INVALID_JSON"

/-- C6: the plan-based upload size limit is enforced at the gateway before
any stage dispatch — a free-tier multipart upload of 6 MB is rejected 413
with max_size "5MB", a developer-tier upload of the same 6 MB passes the
check and is dispatched to the extraction stage — and in general a
multipart upload is dispatched only when its size is within the plan
limit. -/
theorem c6_upload_size_limit :
    api_document_extract "free" (.multipart (some (6 * 1024 * 1024, "doc.pdf"))) =
      .tooLarge "5MB" "free" ∧
    api_document_extract "developer"
      (.multipart (some (6 * 1024 * 1024, "doc.pdf"))) =
      .dispatched (.uploaded (6 * 1024 * 1024) "doc.pdf") ∧
    ∀ (plan : String) (size : Nat) (filename : String),
      sizeLimitsGet plan < size →
      api_document_extract plan (.multipart (some (size, filename))) =
        .tooLarge (toString (sizeLimitsGet plan / (1024 * 1024)) ++ "MB") plan := by
  refine ⟨by decide, by decide, ?_⟩
  intro plan size filename hsize
  simp [api_document_extract, hsize]

/-- Witness for C6: an enterprise-plan upload one byte over 500 MB is
rejected 413 with max_size "500MB". -/
theorem c6_upload_size_limit_witness :
    api_document_extract "enterprise"
      (.multipart (some (500 * 1024 * 1024 + 1, "big.pdf"))) =
      .tooLarge "500MB" "enterprise" := by
  have h := c6_upload_size_limit.2.2 "enterprise" (500 * 1024 * 1024 + 1)
    "big.pdf" (by decide)
  simpa using h

/-- One chunk as assembled by `api_generate_embeddings` before the
embedding stage call (function_app.py lines 656-667); `token_count` is the
Python `len(text.split())`, the number of whitespace-separated words. -/
structure ChunkIn where
  text : String
  filename : String
  url : String
  start_page : Nat
  end_page : Nat
  start_index : Nat
  end_index : Nat
  token_count : Nat
deriving DecidableEq, Repr

/-- `len(text.split())` - the number of nonempty maximal runs between
whitespace. -/
def pySplitLen (text : String) : Nat :=
  ((text.split Char.isWhitespace).filter (fun w => w ≠ "")).length

/-- The chunk list built by the loop at function_app.py lines 656-667:
`data.get("filename", f"text_{i}.txt")`, `data.get("source_url", "")`,
zero page and start offsets, `end_index = len(text)` and the rough token
count. -/
def mkChunks (texts : List String) (filename : Option String)
    (source_url : Option String) : List ChunkIn :=
  texts.enum.map fun p =>
    ⟨p.2, filename.getD ("text_" ++ toString p.1 ++ ".txt"),
     source_url.getD "", 0, 0, 0, p.2.length, pySplitLen p.2⟩

/-- Gateway outcome of `api_generate_embeddings` up to the stage dispatch. -/
inductive EmbedOutcome where
  | rejected (status_code : Nat) (code : String)
  | dispatched (chunks : List ChunkIn)
deriving DecidableEq, Repr

/-- `api_generate_embeddings` (function_app.py lines 635-670) up to the
invocation of the embedding stage: a body without `texts` is rejected 400
MISSING_TEXTS, `len(data["texts"]) > 100` is rejected 400 BATCH_TOO_LARGE,
otherwise the chunk list is built and the embedding activity is called. -/
def api_generate_embeddings (texts : Option (List String))
    (filename : Option String) (source_url : Option String) : EmbedOutcome :=
  match texts with
  | none => .rejected 400 "MISSING_TEXTS"
  | some ts =>
    if ts.length > 100 then .rejected 400 "BATCH_TOO_LARGE"
    else .dispatched (mkChunks ts filename source_url)

/-- C7: a texts array of length 101 or more is rejected 400
BATCH_TOO_LARGE before the embedding stage is invoked, and an array of
length at most 100 passes the batch check and is dispatched to the stage. -/
theorem c7_batch_size_limit :
    (∀ (ts : List String) (filename source_url : Option String),
      101 ≤ ts.length →
      api_generate_embeddings (some ts) filename source_url =
        .rejected 400 "BATCH_TOO_LARGE") ∧
    (∀ (ts : List String) (filename source_url : Option String),
      ts.length ≤ 100 →
      api_generate_embeddings (some ts) filename source_url =
        .dispatched (mkChunks ts filename source_url)) := by
  constructor
  · intro ts filename source_url hlen
    simp only [api_generate_embeddings]
    rw [if_pos (by omega)]
  · intro ts filename source_url hlen
    simp only [api_generate_embeddings]
    rw [if_neg (by omega)]

/-- Witness for C7: 101 texts are rejected BATCH_TOO_LARGE, 100 texts are
dispatched. -/
theorem c7_batch_size_limit_witness :
    api_generate_embeddings (some (List.replicate 101 "t")) none none =
      .rejected 400 "BATCH_TOO_LARGE" ∧
    api_generate_embeddings (some (List.replicate 100 "t")) none none =
      .dispatched (mkChunks (List.replicate 100 "t") none none) :=
  ⟨c7_batch_size_limit.1 (List.replicate 101 "t") none none (by decide),
   c7_batch_size_limit.2 (List.replicate 100 "t") none none (by decide)⟩

/-- Gateway outcome of `api_pipeline_complete` up to starting the
orchestration (function_app.py lines 701-747): a rejection, or
`client.start_new("index_document", ...)` on the resolved source with the
resolved index name (202). -/
inductive PipelineOutcome where
  | rejected (status_code : Nat) (code : String)
  | started (source : DocSource) (index_name : String)
deriving DecidableEq, Repr

/-- The request body of the pipeline endpoint: the multipart form carries
the optional `document` file and the optional form field `index_name`; the
JSON body carries optional `document_url` and `index_name`. -/
inductive PipelineBody where
  | multipart (document : Option (Nat × String)) (index_name : Option String)
  | jsonBody (document_url : Option String) (index_name : Option String)
deriving DecidableEq, Repr

/-- `api_pipeline_complete` (function_app.py lines 701-747) up to starting
the index_document orchestration.  Neither branch checks any size limit;
the index name defaults to `f"api-{req.user[id]}"`. -/
def api_pipeline_complete (user_id : String) (body : PipelineBody) :
    PipelineOutcome :=
  match body with
  | .multipart none _ => .rejected 400 "MISSING_DOCUMENT"
  | .multipart (some (size, filename)) index_name =>
    .started (.uploaded size filename) (index_name.getD ("api-" ++ user_id))
  | .jsonBody document_url index_name =>
    match document_url with
    | none => .rejected 400 "MISSING_URL"
    | some u =>
      if u = "" then .rejected 400 "MISSING_URL"
      else .started (.url u) (index_name.getD ("api-" ++ user_id))

/-- Predicate for the 413 outcome of the extraction endpoint. -/
def isTooLarge : ExtractOutcome → Bool
  | .tooLarge _ _ => true
  | _ => false

/-- C10: a JSON request carrying a document_url undergoes no plan-based
size check: on the extraction endpoint the 413 branch is reachable only
from a multipart upload, and on both the extraction and the full-pipeline
endpoint a nonempty document_url is dispatched for every plan; the
pipeline endpoint has no 413 branch at all (its outcome type carries
none). -/
theorem c10_url_bypasses_size_limit :
    (∀ (plan : String) (body : ExtractBody),
      isTooLarge (api_document_extract plan body) = true →
      ∃ size filename, body = .multipart (some (size, filename))) ∧
    (∀ (plan u : String) (filename : String), u ≠ "" →
      api_document_extract plan (.jsonBody (some u) filename) =
        .dispatched (.url u)) ∧
    (∀ (user_id u : String) (index_name : Option String), u ≠ "" →
      api_pipeline_complete user_id (.jsonBody (some u) index_name) =
        .started (.url u) (index_name.getD ("api-" ++ user_id))) := by
  refine ⟨?_, ?_, ?_⟩
  · intro plan body h
    match body with
    | .multipart none => simp [api_document_extract, isTooLarge] at h
    | .multipart (some (size, filename)) => exact ⟨size, filename, rfl⟩
    | .jsonBody document_url filename =>
      rcases document_url with _ | u
      · simp [api_document_extract, isTooLarge] at h
      · simp only [api_document_extract] at h
        split at h <;> simp [isTooLarge] at h
    | .invalidJson => simp [api_document_extract, isTooLarge] at h
  · intro plan u filename hu
    simp [api_document_extract, hu]
  · intro user_id u index_name hu
    simp [api_pipeline_complete, hu]

/-- Witness for C10: a 2 GB document referenced by URL is dispatched on the
free plan on both endpoints. -/
theorem c10_url_bypasses_size_limit_witness :
    api_document_extract "free"
      (.jsonBody (some "https://example.com/huge-2gb.pdf") "document") =
      .dispatched (.url "https://example.com/huge-2gb.pdf") ∧
    api_pipeline_complete "u1"
      (.jsonBody (some "https://example.com/huge-2gb.pdf") none) =
      .started (.url "https://example.com/huge-2gb.pdf") "api-u1" :=
  ⟨c10_url_bypasses_size_limit.2.1 "free" "https://example.com/huge-2gb.pdf"
     "document" (by decide),
   by
     have h := c10_url_bypasses_size_limit.2.2 "u1"
       "https://example.com/huge-2gb.pdf" none (by decide)
     simpa using h⟩

end Indexadillo
